import Mathlib

/-!
Shallow embedding of the repository's single source file `pelicanconf.py`,
a Pelican static-site-generator configuration module.  Every configuration
value assigned in that file is embedded as a Lean constant of the same name.
Python `None` sentinels become `Option.none`, Python strings become `String`,
tuples and lists become Lean lists, and dictionaries become association lists
in source order.  Brace characters inside template strings are written with
the escapes \x7b and \x7d.
-/

/-- The opening-brace character used by Python format placeholders. -/
def lbrace : Char := Char.ofNat 123

/-- The closing-brace character used by Python format placeholders. -/
def rbrace : Char := Char.ofNat 125

/-- `pelicanconf.py` line 7: `AUTHOR = u'Faisal Khan'`. -/
def AUTHOR : String := "Faisal Khan"

/-- `pelicanconf.py` line 8: `SITENAME = u"Faisal's Notes"`. -/
def SITENAME : String := "Faisal\x27s Notes"

/-- `pelicanconf.py` line 9: `TAGLINE = "Data | Code | Visualization"`. -/
def TAGLINE : String := "Data | Code | Visualization"

/-- `pelicanconf.py` line 10: `SITEURL = 'http://faisalnotes.com'`. -/
def SITEURL : String := "http://faisalnotes.com"

/-- `pelicanconf.py` line 11: `PATH = 'content'`. -/
def PATH : String := "content"

/-- `pelicanconf.py` line 13: `TIMEZONE = 'America/Chicago'`. -/
def TIMEZONE : String := "America/Chicago"

/-- `pelicanconf.py` line 15: `DEFAULT_LANG = u'en'`. -/
def DEFAULT_LANG : String := "en"

/-- `pelicanconf.py` line 17: the filename-metadata regular expression
`(?P<date>\d{4}-\d{2}-\d{2})-(?P<slug>.*)`, kept verbatim as a string. -/
def FILENAME_METADATA : String :=
  "(?P<date>\\d\x7b4\x7d-\\d\x7b2\x7d-\\d\x7b2\x7d)-(?P<slug>.*)"

/-- `pelicanconf.py` line 20: `FEED_ALL_ATOM = None`. -/
def FEED_ALL_ATOM : Option String := none

/-- `pelicanconf.py` line 21: `CATEGORY_FEED_ATOM = None`. -/
def CATEGORY_FEED_ATOM : Option String := none

/-- `pelicanconf.py` line 22: `TRANSLATION_FEED_ATOM = None`. -/
def TRANSLATION_FEED_ATOM : Option String := none

/-- `pelicanconf.py` line 23: `AUTHOR_FEED_ATOM = None`. -/
def AUTHOR_FEED_ATOM : Option String := none

/-- `pelicanconf.py` line 24: `AUTHOR_FEED_RSS = None`. -/
def AUTHOR_FEED_RSS : Option String := none

/-- `pelicanconf.py` line 27: `THEME = 'themes/pure-tech'`. -/
def THEME : String := "themes/pure-tech"

/-- `pelicanconf.py` lines 29-32: `STATIC_PATHS`. -/
def STATIC_PATHS : List String := ["images", "extra/CNAME"]

/-- `pelicanconf.py` lines 34-37: `EXTRA_PATH_METADATA`, a dict from source
path to a metadata dict, embedded as an association list in source order. -/
def EXTRA_PATH_METADATA : List (String × List (String × String)) :=
  [("images/favicon.png", [("path", "favicon.png")]),
   ("extra/CNAME", [("path", "CNAME")])]

/-- `pelicanconf.py` lines 39-41: `DATE_FORMATS = {'en': '%Y-%m-%d'}`. -/
def DATE_FORMATS : List (String × String) := [("en", "%Y-%m-%d")]

/-- `pelicanconf.py` line 43: `SITESUBTITLES = ('Faisal\'s Notes', '')`. -/
def SITESUBTITLES : String × String := ("Faisal\x27s Notes", "")

/-- `pelicanconf.py` line 46: `LINKS = ()`. -/
def LINKS : List (String × String) := []

/-- `pelicanconf.py` line 49: `SOCIAL = ()`. -/
def SOCIAL : List (String × String) := []

/-- `pelicanconf.py` line 51: `DEFAULT_PAGINATION = 5`. -/
def DEFAULT_PAGINATION : Nat := 5

/-- `pelicanconf.py` line 53: the first pagination pattern,
`(1, '{base_name}/', '{base_name}/index.html')`. -/
def PAGINATION_PATTERN_1 : Nat × String × String :=
  (1, "\x7bbase_name\x7d/", "\x7bbase_name\x7d/index.html")

/-- `pelicanconf.py` line 54: the second pagination pattern,
`(2, '{base_name}/page/{number}/', '{base_name}/page/{number}/index.html')`. -/
def PAGINATION_PATTERN_2 : Nat × String × String :=
  (2, "\x7bbase_name\x7d/page/\x7bnumber\x7d/",
      "\x7bbase_name\x7d/page/\x7bnumber\x7d/index.html")

/-- `pelicanconf.py` lines 52-55: `PAGINATION_PATTERNS`, an ordered pair of
(min page index, URL template, save-path template) tuples. -/
def PAGINATION_PATTERNS : List (Nat × String × String) :=
  [PAGINATION_PATTERN_1, PAGINATION_PATTERN_2]

/-- `pelicanconf.py` line 56: `PLUGIN_PATHS = ['pelican-plugins', 'plugins']`. -/
def PLUGIN_PATHS : List String := ["pelican-plugins", "plugins"]

/-- `pelicanconf.py` line 58: `DIRECT_TEMPLATES = ('index', 'archives')`. -/
def DIRECT_TEMPLATES : List String := ["index", "archives"]

/-- `pelicanconf.py` line 59: `ARCHIVES_SAVE_AS = 'archives/index.html'`. -/
def ARCHIVES_SAVE_AS : String := "archives/index.html"

/-- `pelicanconf.py` line 60: `ARTICLE_URL = '{slug}/'`. -/
def ARTICLE_URL : String := "\x7bslug\x7d/"

/-- `pelicanconf.py` line 61: `ARTICLE_SAVE_AS = '{slug}/index.html'`. -/
def ARTICLE_SAVE_AS : String := "\x7bslug\x7d/index.html"

/-- `pelicanconf.py` line 62: `PAGE_URL = '{slug}/'`. -/
def PAGE_URL : String := "\x7bslug\x7d/"

/-- `pelicanconf.py` line 63: `PAGE_SAVE_AS = '{slug}/index.html'`. -/
def PAGE_SAVE_AS : String := "\x7bslug\x7d/index.html"

/-- `pelicanconf.py` line 64: `TAG_URL = 'tag/{slug}/'`. -/
def TAG_URL : String := "tag/\x7bslug\x7d/"

/-- `pelicanconf.py` line 65: `TAG_SAVE_AS = 'tag/{slug}/index.html'`. -/
def TAG_SAVE_AS : String := "tag/\x7bslug\x7d/index.html"

/-- `pelicanconf.py` line 66: `TAGS_SAVE_AS = ''`. -/
def TAGS_SAVE_AS : String := ""

/-- `pelicanconf.py` line 67: `AUTHOR_URL = ''`. -/
def AUTHOR_URL : String := ""

/-- `pelicanconf.py` line 68: `AUTHOR_SAVE_AS = ''`. -/
def AUTHOR_SAVE_AS : String := ""

/-- `pelicanconf.py` line 69: `CATEGORY_URL = ''`. -/
def CATEGORY_URL : String := ""

/-- `pelicanconf.py` line 70: `CATEGORY_SAVE_AS = ''`. -/
def CATEGORY_SAVE_AS : String := ""

/-- The names assigned at module level in `pelicanconf.py`, in source order.
This is the set of configuration keys the file defines. -/
def definedKeys : List String :=
  ["AUTHOR", "SITENAME", "TAGLINE", "SITEURL", "PATH", "TIMEZONE",
   "DEFAULT_LANG", "FILENAME_METADATA", "FEED_ALL_ATOM", "CATEGORY_FEED_ATOM",
   "TRANSLATION_FEED_ATOM", "AUTHOR_FEED_ATOM", "AUTHOR_FEED_RSS", "THEME",
   "STATIC_PATHS", "EXTRA_PATH_METADATA", "DATE_FORMATS", "SITESUBTITLES",
   "LINKS", "SOCIAL", "DEFAULT_PAGINATION", "PAGINATION_PATTERNS",
   "PLUGIN_PATHS", "DIRECT_TEMPLATES", "ARCHIVES_SAVE_AS", "ARTICLE_URL",
   "ARTICLE_SAVE_AS", "PAGE_URL", "PAGE_SAVE_AS", "TAG_URL", "TAG_SAVE_AS",
   "TAGS_SAVE_AS", "AUTHOR_URL", "AUTHOR_SAVE_AS", "CATEGORY_URL",
   "CATEGORY_SAVE_AS"]

/-!
Semantics of Python `str.format` restricted to the simple named placeholders
(`{name}`) that appear in this configuration: no positional fields, no
conversion or format specs, and no escaped literal braces, since none occur
in any template of `pelicanconf.py`.  A missing key makes `str.format` raise
`KeyError`; the embedding returns `none` in that case, and on an unterminated
placeholder.
-/

/-- Worker for `pyformat`.  The `Bool` flag is true while scanning the
name of a placeholder, accumulated in the `String` argument. -/
def formatAux (env : List (String × String)) :
    Bool → String → List Char → Option String
  | true, _, [] => none
  | true, acc, c :: cs =>
    if c = rbrace then
      match env.find? (fun p => p.1 == acc) with
      | some p => (formatAux env false "" cs).map (fun s => p.2 ++ s)
      | none => none
    else formatAux env true (acc.push c) cs
  | false, _, [] => some ""
  | false, _, c :: cs =>
    if c = lbrace then formatAux env true "" cs
    else (formatAux env false "" cs).map (fun s => String.singleton c ++ s)

/-- Python `template.format(**env)` for simple named placeholders:
substitute `env` into `template`, `none` on a missing key. -/
def pyformat (env : List (String × String)) (template : String) :
    Option String :=
  formatAux env false "" template.data

/-!
Helper notions used by the claims: placeholder extraction, save-path safety,
named regex groups, and the pagination-rule selection described by the spec.
-/

/-- Worker for `placeholders`: collect placeholder names in order. -/
def placeholdersAux : Bool → String → List Char → List String
  | true, _, [] => []
  | true, acc, c :: cs =>
    if c = rbrace then acc :: placeholdersAux false "" cs
    else placeholdersAux true (acc.push c) cs
  | false, _, [] => []
  | false, _, c :: cs =>
    if c = lbrace then placeholdersAux true "" cs
    else placeholdersAux false "" cs

/-- The named placeholders a format template mentions, in order. -/
def placeholders (template : String) : List String :=
  placeholdersAux false "" template.data

/-- Worker for `namedGroups`: a named group opens with the four characters
`(?P<` and its name runs to the next `>`. -/
def namedGroupsAux : Bool → String → List Char → List String
  | true, _, [] => []
  | true, acc, c :: cs =>
    if c = '>' then acc :: namedGroupsAux false "" cs
    else namedGroupsAux true (acc.push c) cs
  | false, _, '(' :: '?' :: 'P' :: '<' :: cs => namedGroupsAux true "" cs
  | false, _, _ :: cs => namedGroupsAux false "" cs
  | false, _, [] => []

/-- The named capture groups of a Python regular expression, in order. -/
def namedGroups (regex : String) : List String :=
  namedGroupsAux false "" regex.data

/-- Worker for `pathComponents`: split a character list at every `/`. -/
def splitSlashAux (acc : List Char) : List Char → List (List Char)
  | [] => [acc.reverse]
  | c :: cs =>
    if c = '/' then acc.reverse :: splitSlashAux [] cs
    else splitSlashAux (c :: acc) cs

/-- The `/`-separated components of a path. -/
def pathComponents (p : String) : List (List Char) :=
  splitSlashAux [] p.data

/-- True when a character list does not start with `/`. -/
def headNotSlash : List Char → Bool
  | [] => true
  | c :: _ => c != '/'

/-- A path is a valid relative path in the sense of the spec when it is not
absolute (no leading `/`) and cannot escape the output root (no `..`
component). -/
def isRelativeSafe (p : String) : Bool :=
  headNotSlash p.data && (pathComponents p).all (fun comp => comp != ['.', '.'])

/-- True when a string ends in the character `/`. -/
def endsWithSlash (s : String) : Bool :=
  s.data.getLast? == some '/'

/-- Modelled from the spec: the page-index rules the external generation
engine attaches to the entries of `PAGINATION_PATTERNS` (the engine itself is
not part of this repository).  Per the spec, the rule of the min-page-1 entry
is "page index == 1", and the rule of a later entry with min page `m` is
"page index ≥ m". -/
def ruleMatches (minPage p : Nat) : Bool :=
  if minPage = 1 then p == 1 else decide (minPage ≤ p)

/-- Modelled from the spec: order-sensitive first-match-wins selection of a
pagination pattern for page index `p`, as the spec describes the external
engine's lookup over the ordered table `PAGINATION_PATTERNS`. -/
def selectPattern (p : Nat) : Option (Nat × String × String) :=
  PAGINATION_PATTERNS.find? (fun e => ruleMatches e.1 p)

/-- The per-content-kind (URL template, save-path template) pairs that
`pelicanconf.py` defines: article, page, tag, author, category. -/
def routingTemplatePairs : List (String × String) :=
  [(ARTICLE_URL, ARTICLE_SAVE_AS), (PAGE_URL, PAGE_SAVE_AS),
   (TAG_URL, TAG_SAVE_AS), (AUTHOR_URL, AUTHOR_SAVE_AS),
   (CATEGORY_URL, CATEGORY_SAVE_AS)]

/-- Whether `pelicanconf.py` assigns both the URL key and the save-path key
of a content kind, named by the Pelican setting-name stem. -/
def definesUrlAndSave (stem : String) : Bool :=
  definedKeys.contains (stem ++ "_URL") &&
  definedKeys.contains (stem ++ "_SAVE_AS")

/-- The setting-name stems of the six content kinds the spec lists:
article, page, tag, author, category, archive index. -/
def contentKindStems : List String :=
  ["ARTICLE", "PAGE", "TAG", "AUTHOR", "CATEGORY", "ARCHIVES"]

/-- Whether an extra-path-metadata key is an entry of `STATIC_PATHS` or lies
under one of its directory entries. -/
def pathCoveredByStatic (key : String) : Bool :=
  STATIC_PATHS.any (fun sp =>
    key == sp || (sp ++ "/").data.isPrefixOf key.data)

theorem splitSlashAux_append (a : List Char) (rest : List Char)
    (acc : List Char) (h : ∀ c ∈ a, c ≠ '/') :
    splitSlashAux acc (a ++ '/' :: rest)
      = (acc.reverse ++ a) :: splitSlashAux [] rest := by
  induction a generalizing acc with
  | nil => simp [splitSlashAux]
  | cons c cs ih =>
    have hc : c ≠ '/' := h c (List.mem_cons_self ..)
    have step : splitSlashAux acc ((c :: cs) ++ '/' :: rest)
        = splitSlashAux (c :: acc) (cs ++ '/' :: rest) := by
      rw [List.cons_append, splitSlashAux, if_neg hc]
    rw [step, ih (c :: acc) (fun d hd => h d (List.mem_cons_of_mem _ hd))]
    simp

theorem endsWithSlash_append (a : String) : endsWithSlash (a ++ "/") = true := by
  have hd : (a ++ "/").data = a.data ++ ['/'] := String.data_append ..
  simp [endsWithSlash, hd, List.getLast?_concat]

theorem safe_slug_index (v : String) (hne : v ≠ "")
    (hsep : ∀ c ∈ v.data, c ≠ '/') (hdd : v ≠ "..") :
    isRelativeSafe (v ++ "/index.html") = true := by
  obtain ⟨l⟩ := v
  cases l with
  | nil => exact absurd rfl hne
  | cons c cs =>
    have hc : c ≠ '/' := hsep c (List.mem_cons_self ..)
    have hcomp : (c :: cs) ≠ ['.', '.'] := fun h => hdd (congrArg String.mk h)
    have hdata : (String.mk (c :: cs) ++ "/index.html").data
        = (c :: cs) ++ '/' :: "index.html".data := rfl
    have hrest : (splitSlashAux [] "index.html".data).all
        (fun comp => comp != ['.', '.']) = true := by decide
    unfold isRelativeSafe pathComponents
    rw [hdata, splitSlashAux_append (c :: cs) _ [] hsep]
    simp [List.cons_append, headNotSlash, List.all_cons, hrest,
      bne_iff_ne, hc, hcomp]

theorem safe_tag_slug_index (v : String) (hne : v ≠ "")
    (hsep : ∀ c ∈ v.data, c ≠ '/') (hdd : v ≠ "..") :
    isRelativeSafe ("tag/" ++ (v ++ "/index.html")) = true := by
  obtain ⟨l⟩ := v
  cases l with
  | nil => exact absurd rfl hne
  | cons c cs =>
    have hc : c ≠ '/' := hsep c (List.mem_cons_self ..)
    have hcomp : (c :: cs) ≠ ['.', '.'] := fun h => hdd (congrArg String.mk h)
    have hdata : ("tag/" ++ (String.mk (c :: cs) ++ "/index.html")).data
        = ['t', 'a', 'g'] ++ '/' :: ((c :: cs) ++ '/' :: "index.html".data) :=
      rfl
    have hrest : (splitSlashAux [] "index.html".data).all
        (fun comp => comp != ['.', '.']) = true := by decide
    have htag : ((['t', 'a', 'g'] : List Char) != ['.', '.']) = true := by
      decide
    unfold isRelativeSafe pathComponents
    rw [hdata, splitSlashAux_append ['t', 'a', 'g'] _ [] (by decide),
      splitSlashAux_append (c :: cs) _ [] hsep]
    simp [List.cons_append, headNotSlash, List.all_cons, hrest, htag,
      bne_iff_ne, hc, hcomp]

/-!
The claims.
-/

/-- Claim C1: for every content kind whose URL and save-path templates are
both defined and nonempty (article, page, tag), substituting the same slug
metadata into the URL template and into the save-path template yields a save
path equal to the URL followed by `index.html` when the URL ends in `/`, and
equal to the URL directly otherwise. -/
theorem C1_url_save_duality (v : String) :
    ∀ pr ∈ [(ARTICLE_URL, ARTICLE_SAVE_AS), (PAGE_URL, PAGE_SAVE_AS),
        (TAG_URL, TAG_SAVE_AS)],
      ∃ u s, pyformat [("slug", v)] pr.1 = some u ∧
        pyformat [("slug", v)] pr.2 = some s ∧
        s = (if endsWithSlash u then u ++ "index.html" else u) := by
  have hone : ∃ u s, pyformat [("slug", v)] ARTICLE_URL = some u ∧
      pyformat [("slug", v)] ARTICLE_SAVE_AS = some s ∧
      s = (if endsWithSlash u then u ++ "index.html" else u) := by
    refine ⟨v ++ "/", v ++ "/index.html", rfl, rfl, ?_⟩
    rw [endsWithSlash_append v, if_pos rfl, String.append_assoc]
    rfl
  have htag : ∃ u s, pyformat [("slug", v)] TAG_URL = some u ∧
      pyformat [("slug", v)] TAG_SAVE_AS = some s ∧
      s = (if endsWithSlash u then u ++ "index.html" else u) := by
    refine ⟨("tag/" ++ v) ++ "/", (("tag/" ++ v) ++ "/") ++ "index.html",
      ?_, ?_, ?_⟩
    · rw [String.append_assoc]
      rfl
    · rw [String.append_assoc, String.append_assoc]
      rfl
    · rw [endsWithSlash_append ("tag/" ++ v), if_pos rfl]
  intro pr hpr
  simp only [List.mem_cons, List.not_mem_nil, or_false] at hpr
  rcases hpr with rfl | rfl | rfl
  · exact hone
  · exact hone
  · exact htag

/-- Witness for C1 at the concrete slug `hello` and the article pair. -/
theorem C1_witness :
    ∃ u s, pyformat [("slug", "hello")] (ARTICLE_URL, ARTICLE_SAVE_AS).1
        = some u ∧
      pyformat [("slug", "hello")] (ARTICLE_URL, ARTICLE_SAVE_AS).2
        = some s ∧
      s = (if endsWithSlash u then u ++ "index.html" else u) :=
  C1_url_save_duality "hello" (ARTICLE_URL, ARTICLE_SAVE_AS) (by simp)

/-- Claim C2: substituting any base name into the page-1 pagination pattern
yields the unpaginated canonical URL `b ++ "/"` and save path
`b ++ "/index.html"`, exactly the values the base content-kind templates
(the article templates) yield for the same value. -/
theorem C2_page1_canonical (b : String) :
    pyformat [("base_name", b)] PAGINATION_PATTERN_1.2.1 = some (b ++ "/") ∧
    pyformat [("base_name", b)] PAGINATION_PATTERN_1.2.2
      = some (b ++ "/index.html") ∧
    pyformat [("base_name", b)] PAGINATION_PATTERN_1.2.1
      = pyformat [("slug", b)] ARTICLE_URL ∧
    pyformat [("base_name", b)] PAGINATION_PATTERN_1.2.2
      = pyformat [("slug", b)] ARTICLE_SAVE_AS :=
  ⟨rfl, rfl, rfl, rfl⟩

/-- Claim C3: the pagination table has exactly two entries and, under the
spec's first-match-wins rule matching, page index 1 selects the unpaginated
canonical entry while every page index ≥ 2 selects the entry whose templates
carry the `number` placeholder (which the page-1 entry lacks). -/
theorem C3_pattern_selection :
    PAGINATION_PATTERNS.length = 2 ∧
    (∀ p : Nat, p = 1 → selectPattern p = some PAGINATION_PATTERN_1) ∧
    (∀ p : Nat, 2 ≤ p → selectPattern p = some PAGINATION_PATTERN_2) ∧
    "number" ∈ placeholders PAGINATION_PATTERN_2.2.1 ∧
    "number" ∈ placeholders PAGINATION_PATTERN_2.2.2 ∧
    "number" ∉ placeholders PAGINATION_PATTERN_1.2.1 ∧
    "number" ∉ placeholders PAGINATION_PATTERN_1.2.2 := by
  refine ⟨rfl, ?_, ?_, by decide, by decide, by decide, by decide⟩
  · rintro p rfl
    decide
  · intro p hp
    have h1 : ruleMatches 1 p = false := by
      simp [ruleMatches]
      omega
    have h2 : ruleMatches 2 p = true := by
      simp [ruleMatches]
      omega
    simp [selectPattern, PAGINATION_PATTERNS, PAGINATION_PATTERN_1,
      PAGINATION_PATTERN_2, List.find?, h1, h2]

/-- Witness for C3 at the concrete page indices 1 and 5. -/
theorem C3_witness :
    selectPattern 1 = some PAGINATION_PATTERN_1 ∧
    selectPattern 5 = some PAGINATION_PATTERN_2 :=
  ⟨C3_pattern_selection.2.1 1 rfl, C3_pattern_selection.2.2.1 5 (by decide)⟩

/-- Claim C5: every feed-generation field carries the explicit disabled
sentinel `None`, and that sentinel differs from the empty string value. -/
theorem C5_feeds_disabled :
    FEED_ALL_ATOM = none ∧ CATEGORY_FEED_ATOM = none ∧
    TRANSLATION_FEED_ATOM = none ∧ AUTHOR_FEED_ATOM = none ∧
    AUTHOR_FEED_RSS = none ∧ FEED_ALL_ATOM ≠ some "" ∧
    CATEGORY_FEED_ATOM ≠ some "" ∧ TRANSLATION_FEED_ATOM ≠ some "" ∧
    AUTHOR_FEED_ATOM ≠ some "" ∧ AUTHOR_FEED_RSS ≠ some "" := by
  refine ⟨rfl, rfl, rfl, rfl, rfl, ?_, ?_, ?_, ?_, ?_⟩ <;> decide

/-- Claim C4: for every page number N with 2 ≤ N ≤ 10 and every base name,
the page-index-≥2 pagination pattern yields a URL and a save path containing
the decimal literal of N, both distinct from what the page-1 pattern yields
for the same base name. -/
theorem C4_pageN_contains_number (N : Nat) (h2 : 2 ≤ N) (h10 : N ≤ 10)
    (b : String) :
    ∃ u s, pyformat [("base_name", b), ("number", toString N)]
        PAGINATION_PATTERN_2.2.1 = some u ∧
      pyformat [("base_name", b), ("number", toString N)]
        PAGINATION_PATTERN_2.2.2 = some s ∧
      (∃ pre suf, u = pre ++ (toString N ++ suf)) ∧
      (∃ pre suf, s = pre ++ (toString N ++ suf)) ∧
      pyformat [("base_name", b)] PAGINATION_PATTERN_1.2.1
        = some (b ++ "/") ∧
      pyformat [("base_name", b)] PAGINATION_PATTERN_1.2.2
        = some (b ++ "/index.html") ∧
      u ≠ b ++ "/" ∧ s ≠ b ++ "/index.html" := by
  refine ⟨b ++ ("/page/" ++ (toString N ++ "/")),
    b ++ ("/page/" ++ (toString N ++ "/index.html")),
    rfl, rfl, ⟨b ++ "/page/", "/", by rw [String.append_assoc]⟩,
    ⟨b ++ "/page/", "/index.html", by rw [String.append_assoc]⟩,
    rfl, rfl, ?_, ?_⟩
  · intro heq
    have h := congrArg String.length heq
    simp only [String.length_append] at h
    have e6 : ("/page/" : String).length = 6 := rfl
    have e1 : ("/" : String).length = 1 := rfl
    simp only [e6, e1] at h
    omega
  · intro heq
    have h := congrArg String.length heq
    simp only [String.length_append] at h
    have e6 : ("/page/" : String).length = 6 := rfl
    have e11 : ("/index.html" : String).length = 11 := rfl
    simp only [e6, e11] at h
    omega

/-- Witness for C4 at page number 3 and base name `posts`. -/
theorem C4_witness :
    ∃ u s, pyformat [("base_name", "posts"), ("number", toString 3)]
        PAGINATION_PATTERN_2.2.1 = some u ∧
      pyformat [("base_name", "posts"), ("number", toString 3)]
        PAGINATION_PATTERN_2.2.2 = some s ∧
      (∃ pre suf, u = pre ++ (toString 3 ++ suf)) ∧
      (∃ pre suf, s = pre ++ (toString 3 ++ suf)) ∧
      pyformat [("base_name", "posts")] PAGINATION_PATTERN_1.2.1
        = some ("posts" ++ "/") ∧
      pyformat [("base_name", "posts")] PAGINATION_PATTERN_1.2.2
        = some ("posts" ++ "/index.html") ∧
      u ≠ "posts" ++ "/" ∧ s ≠ "posts" ++ "/index.html" :=
  C4_pageN_contains_number 3 (by decide) (by decide) "posts"

/-- Claim C6: for every (URL, save-path) routing template pair and every slug
value that is nonempty, free of path separators, and not a parent-directory
component, the substituted save path is a relative path that cannot escape
the output root. -/
theorem C6_save_paths_relative (v : String) (hne : v ≠ "")
    (hsep : ∀ c ∈ v.data, c ≠ '/') (hdd : v ≠ "..") :
    ∀ pr ∈ routingTemplatePairs,
      ∃ s, pyformat [("slug", v)] pr.2 = some s ∧
        isRelativeSafe s = true := by
  intro pr hpr
  simp only [routingTemplatePairs, List.mem_cons, List.not_mem_nil, or_false]
    at hpr
  have hart : ∃ s, pyformat [("slug", v)] ARTICLE_SAVE_AS = some s ∧
      isRelativeSafe s = true :=
    ⟨v ++ "/index.html", rfl, safe_slug_index v hne hsep hdd⟩
  have htagx : ∃ s, pyformat [("slug", v)] TAG_SAVE_AS = some s ∧
      isRelativeSafe s = true :=
    ⟨"tag/" ++ (v ++ "/index.html"), rfl, safe_tag_slug_index v hne hsep hdd⟩
  have hempty : ∃ s, pyformat [("slug", v)] AUTHOR_SAVE_AS = some s ∧
      isRelativeSafe s = true := ⟨"", rfl, rfl⟩
  rcases hpr with rfl | rfl | rfl | rfl | rfl
  · exact hart
  · exact hart
  · exact htagx
  · exact hempty
  · exact hempty

/-- Witness for C6 at the slug `my-post` and the article pair. -/
theorem C6_witness :
    ∃ s, pyformat [("slug", "my-post")] (ARTICLE_URL, ARTICLE_SAVE_AS).2
        = some s ∧ isRelativeSafe s = true :=
  C6_save_paths_relative "my-post" (by decide) (by decide) (by decide)
    (ARTICLE_URL, ARTICLE_SAVE_AS) (by decide)

/-- Claim C7 fails on the code: `pelicanconf.py` assigns `ARCHIVES_SAVE_AS`
but never `ARCHIVES_URL`, so the archive-index content kind has a save-path
template without a URL template. -/
theorem C7_counterexample :
    "ARCHIVES" ∈ contentKindStems ∧
    definedKeys.contains "ARCHIVES_SAVE_AS" = true ∧
    definedKeys.contains "ARCHIVES_URL" = false ∧
    ¬ (∀ stem ∈ contentKindStems, definesUrlAndSave stem = true) := by decide

/-- Claim C7 amended: each of the kinds article, page, tag, author, and
category has both a URL template key and a save-path template key in the
configuration, while the archive index has only the save-path key
`ARCHIVES_SAVE_AS` and no URL key. -/
theorem C7_templates_defined :
    (∀ stem ∈ ["ARTICLE", "PAGE", "TAG", "AUTHOR", "CATEGORY"],
      definesUrlAndSave stem = true) ∧
    definedKeys.contains "ARCHIVES_SAVE_AS" = true ∧
    definedKeys.contains "ARCHIVES_URL" = false := by decide

/-- Witness for the amended C7 at the article kind. -/
theorem C7_witness : definesUrlAndSave "ARTICLE" = true :=
  C7_templates_defined.1 "ARTICLE" (by decide)

/-- Claim C8: each pagination-pattern entry itself satisfies the URL and
save-path duality: the URL template ends in `/` and the save-path template is
the URL template followed by `index.html`. -/
theorem C8_pagination_pattern_duality :
    ∀ e ∈ PAGINATION_PATTERNS,
      endsWithSlash e.2.1 = true ∧ e.2.2 = e.2.1 ++ "index.html" := by decide

/-- Witness for C8 at the first pagination entry. -/
theorem C8_witness :
    endsWithSlash PAGINATION_PATTERN_1.2.1 = true ∧
    PAGINATION_PATTERN_1.2.2 = PAGINATION_PATTERN_1.2.1 ++ "index.html" :=
  C8_pagination_pattern_duality PAGINATION_PATTERN_1 (by decide)

/-- Claim C9: `DATE_FORMATS` contains an entry for the default language code
`DEFAULT_LANG`, which is `en`. -/
theorem C9_date_format_for_default_lang :
    (DATE_FORMATS.find? (fun p => p.1 == DEFAULT_LANG)).isSome = true ∧
    DEFAULT_LANG = "en" := by decide

/-- Claim C10: every `EXTRA_PATH_METADATA` key equals or lies under an entry
of `STATIC_PATHS`, and the named groups of `FILENAME_METADATA` are exactly
`date` and `slug`, covering every placeholder of the article, page, and tag
routing templates. -/
theorem C10_metadata_consistency :
    (EXTRA_PATH_METADATA.all fun kv => pathCoveredByStatic kv.1) = true ∧
    namedGroups FILENAME_METADATA = ["date", "slug"] ∧
    (∀ t ∈ [ARTICLE_URL, ARTICLE_SAVE_AS, PAGE_URL, PAGE_SAVE_AS, TAG_URL,
        TAG_SAVE_AS], ∀ ph ∈ placeholders t,
      ph ∈ namedGroups FILENAME_METADATA) := by decide

/-- Witness for C10 at the article URL template and its `slug` placeholder. -/
theorem C10_witness : "slug" ∈ namedGroups FILENAME_METADATA :=
  C10_metadata_consistency.2.2 ARTICLE_URL (by decide) "slug" (by decide)

/-!
Concrete regression checks of the embedding.
-/

example : pyformat [("slug", "hello")] ARTICLE_URL = some "hello/" := by decide
example : pyformat [("slug", "hello")] ARTICLE_SAVE_AS
    = some "hello/index.html" := by decide
example : pyformat [("slug", "hello")] TAG_SAVE_AS
    = some "tag/hello/index.html" := by decide
example : pyformat [] ARTICLE_URL = none := by decide
example (v : String) : pyformat [("slug", v)] ARTICLE_URL = some (v ++ "/") :=
  rfl
example (v : String) :
    pyformat [("slug", v)] ARTICLE_SAVE_AS = some (v ++ "/index.html") := rfl
example : placeholders PAGINATION_PATTERN_2.2.1 = ["base_name", "number"] := by
  decide
example : isRelativeSafe "tag/hello/index.html" = true := by decide
example : isRelativeSafe "/etc/passwd" = false := by decide
example : isRelativeSafe "a/../b" = false := by decide
